import Mathlib

/- Verification of the AI test-suite generation pipeline of the intellyo
repository (src/server.ts): the JavaScript values the pipeline manipulates,
the JSON extraction applied to provider responses, the YAML step renderer
`generateYamlFromSpec`, the keyword fallback generator
`generateFallbackTests`, the provider dispatch of `generateTestsWithAI`,
and the scenario templates and credential selection of `generateTestYaml`. -/

namespace Intellyo

/-- JavaScript runtime values, as far as the pipeline observes them: the
JSON-representable values plus `undefined` (the result of reading a missing
property).  A number is kept in the exact decimal form `m * 10 ^ e`, which
represents every numeric literal accepted by `JSON.parse`; the pipeline
never computes with numbers, it only tests truthiness and prints them. -/
inductive JsValue where
  | jsUndefined
  | null
  | bool (b : Bool)
  | num (m : Int) (e : Int)
  | str (s : String)
  | arr (elems : List JsValue)
  | obj (fields : List (String × JsValue))

/-- `true` exactly for `null` and `undefined`. -/
def isNullish : JsValue → Bool
  | .null => true
  | .jsUndefined => true
  | _ => false

/-- JavaScript truthiness of a value (`NaN` cannot arise from `JSON.parse`,
and `-0` is covered by `m = 0`). -/
def jsTruthy : JsValue → Bool
  | .jsUndefined => false
  | .null => false
  | .bool b => b
  | .num m _ => m != 0
  | .str s => !s.isEmpty
  | .arr _ => true
  | .obj _ => true

/-- `a || b` on JavaScript values. -/
def jsOr (a b : JsValue) : JsValue :=
  if jsTruthy a then a else b

/-- Property lookup in an object's field list.  `JSON.parse` keeps the
last of several fields with the same key, so the lookup lets a later
binding win; a missing key reads as `undefined`. -/
def lookupField : List (String × JsValue) → String → JsValue
  | [], _ => .jsUndefined
  | (k, v) :: rest, key =>
    match lookupField rest key with
    | .jsUndefined => if k == key then v else .jsUndefined
    | r => r

/-- Property read `v.key` in strict mode: reading from `null` or
`undefined` throws a TypeError (`none`); reading from any other
non-object primitive yields `undefined` (no property of that name is ever
accessed by the pipeline on a primitive that actually has it). -/
def getFieldE : JsValue → String → Option JsValue
  | .null, _ => none
  | .jsUndefined, _ => none
  | .obj fs, key => some (lookupField fs key)
  | _, _ => some .jsUndefined

/-- Optional-chain read `v?.key`: `null`/`undefined` give `undefined`
instead of throwing. -/
def optChain (v : JsValue) (key : String) : JsValue :=
  match v with
  | .null => .jsUndefined
  | .jsUndefined => .jsUndefined
  | .obj fs => lookupField fs key
  | _ => .jsUndefined

/-- Strip factors of ten from `n` into the exponent, with enough fuel for
any number of digits (`n` itself bounds the digit count). -/
def stripTensF : Nat → Nat → Int → Nat × Int
  | 0, n, e => (n, e)
  | fuel + 1, n, e =>
    if n != 0 && n % 10 == 0 then stripTensF fuel (n / 10) (e + 1) else (n, e)

def stripTens (n : Nat) (e : Int) : Nat × Int := stripTensF n n e

def zeros (k : Nat) : String := String.mk (List.replicate k '0')

/-- Decimal rendering of the number `m * 10 ^ e`, as JavaScript string
conversion prints it for the ordinary range (JavaScript switches to
exponential notation only for magnitudes at least 1e21 or below 1e-6,
which the pipeline never produces). -/
def numToString (m : Int) (e : Int) : String :=
  if m = 0 then "0"
  else
    let sign := if m < 0 then "-" else ""
    let p := stripTens m.natAbs e
    let n := p.1
    let e2 := p.2
    if 0 ≤ e2 then
      sign ++ toString n ++ zeros e2.toNat
    else
      let s := toString n
      let k := (-e2).toNat
      if k < s.length then
        sign ++ String.mk (s.data.take (s.length - k)) ++ "." ++ String.mk (s.data.drop (s.length - k))
      else
        sign ++ "0." ++ zeros (k - s.length) ++ s

def commaJoin (l : List String) : String := String.intercalate "," l

mutual

/-- JavaScript string conversion, as used by template-literal
interpolation.  Arrays join their elements with commas (nullish elements
print as empty); plain objects print as `[object Object]`. -/
def jsToString : JsValue → String
  | .jsUndefined => "undefined"
  | .null => "null"
  | .bool b => if b then "true" else "false"
  | .num m e => numToString m e
  | .str s => s
  | .obj _ => "[object Object]"
  | .arr xs => jsElemsToString xs

/-- `Array.prototype.toString`: elements joined with commas, nullish
elements printing as empty. -/
def jsElemsToString : List JsValue → String
  | [] => ""
  | [v] => if isNullish v then "" else jsToString v
  | v :: w :: rest =>
    (if isNullish v then "" else jsToString v) ++ "," ++ jsElemsToString (w :: rest)

end

/-- `String.prototype.includes`: contiguous-substring test. -/
def listHasSub (needle : List Char) : List Char → Bool
  | [] => needle.isEmpty
  | c :: rest => needle.isPrefixOf (c :: rest) || listHasSub needle rest

def jsIncludes (s sub : String) : Bool := listHasSub sub.data s.data

/-- `String.prototype.toLowerCase`, character by character (the keyword
scans only involve ASCII, where `Char.toLower` agrees with JavaScript). -/
def jsToLower (s : String) : String := String.mk (s.data.map Char.toLower)

/-- JSON whitespace. -/
def skipWs : List Char → List Char
  | [] => []
  | c :: cs => if c == ' ' || c == '\n' || c == '\r' || c == '\t' then skipWs cs else c :: cs

def parseHexDigit (c : Char) : Option Nat :=
  if '0' ≤ c && c ≤ '9' then some (c.toNat - 48)
  else if 'a' ≤ c && c ≤ 'f' then some (c.toNat - 87)
  else if 'A' ≤ c && c ≤ 'F' then some (c.toNat - 55)
  else none

/-- Body of a JSON string, after the opening quote: returns the decoded
characters and the input past the closing quote.  Raw control characters
are rejected, the `JSON.parse` escapes are decoded, and `\uXXXX` maps
through `Char.ofNat` (a lone surrogate, which Unicode cannot represent,
degrades to the null character; no claim touches that corner).  Each call
consumes input, so fuel `length + 1` always suffices. -/
def parseStringBody : Nat → List Char → Option (List Char × List Char)
  | 0, _ => none
  | _ + 1, [] => none
  | fuel + 1, c :: cs =>
    if c == '"' then some ([], cs)
    else if c == '\\' then
      match cs with
      | [] => none
      | e :: cs2 =>
        let esc : Option (Char × List Char) :=
          if e == '"' then some ('"', cs2)
          else if e == '\\' then some ('\\', cs2)
          else if e == '/' then some ('/', cs2)
          else if e == 'b' then some (Char.ofNat 8, cs2)
          else if e == 'f' then some (Char.ofNat 12, cs2)
          else if e == 'n' then some ('\n', cs2)
          else if e == 'r' then some ('\r', cs2)
          else if e == 't' then some ('\t', cs2)
          else if e == 'u' then
            match cs2 with
            | h1 :: h2 :: h3 :: h4 :: cs3 =>
              match parseHexDigit h1, parseHexDigit h2, parseHexDigit h3, parseHexDigit h4 with
              | some a, some b, some c2, some d =>
                some (Char.ofNat (a * 4096 + b * 256 + c2 * 16 + d), cs3)
              | _, _, _, _ => none
            | _ => none
          else none
        match esc with
        | some (ch, cs3) =>
          match parseStringBody fuel cs3 with
          | some (body, rest) => some (ch :: body, rest)
          | none => none
        | none => none
    else if c.toNat < 32 then none
    else
      match parseStringBody fuel cs with
      | some (body, rest) => some (c :: body, rest)
      | none => none

def digitsToNat (ds : List Char) : Nat :=
  ds.foldl (fun a c => a * 10 + (c.toNat - 48)) 0

def parseExpTail (l : List Char) : Option (Int × List Char) :=
  let p : Bool × List Char :=
    match l with
    | '+' :: r => (false, r)
    | '-' :: r => (true, r)
    | _ => (false, l)
  let ds := p.2.takeWhile Char.isDigit
  if ds.isEmpty then none
  else
    let v : Int := (digitsToNat ds : Nat)
    some (if p.1 then -v else v, p.2.dropWhile Char.isDigit)

/-- A JSON number token, with the strict `JSON.parse` grammar
`-? (0 | [1-9][0-9]*) (. [0-9]+)? ([eE] [+-]? [0-9]+)?`. -/
def parseNumber (l : List Char) : Option (JsValue × List Char) :=
  let p : Bool × List Char :=
    match l with
    | '-' :: r => (true, r)
    | _ => (false, l)
  let neg := p.1
  let l1 := p.2
  match l1 with
  | [] => none
  | c :: _ =>
    if !c.isDigit then none
    else
      let intDs := l1.takeWhile Char.isDigit
      let l2 := l1.dropWhile Char.isDigit
      if intDs.length > 1 && intDs.head? == some '0' then none
      else
        let fracRes : Option (List Char × List Char) :=
          match l2 with
          | '.' :: r =>
            let fds := r.takeWhile Char.isDigit
            if fds.isEmpty then none else some (fds, r.dropWhile Char.isDigit)
          | _ => some ([], l2)
        match fracRes with
        | none => none
        | some (fracDs, l3) =>
          let expRes : Option (Int × List Char) :=
            match l3 with
            | 'e' :: r => parseExpTail r
            | 'E' :: r => parseExpTail r
            | _ => some (0, l3)
          match expRes with
          | none => none
          | some (ex, l4) =>
            let mNat := digitsToNat (intDs ++ fracDs)
            let m : Int := if neg then -(mNat : Int) else (mNat : Int)
            some (.num m (ex - fracDs.length), l4)

mutual

/-- One JSON value, by recursive descent.  The fuel only bounds the
number of recursive calls; `jsonParse` below supplies more than the
grammar can ever consume, so the fuel never runs out on any input. -/
def parseValue : Nat → List Char → Option (JsValue × List Char)
  | 0, _ => none
  | fuel + 1, l =>
    match l with
    | [] => none
    | c :: cs =>
      if c == '"' then
        match parseStringBody (cs.length + 1) cs with
        | some (body, rest) => some (.str (String.mk body), rest)
        | none => none
      else if c == '[' then
        match skipWs cs with
        | ']' :: rest => some (.arr [], rest)
        | l1 =>
          match parseElems fuel l1 with
          | some (vs, rest) => some (.arr vs, rest)
          | none => none
      else if c == '\x7b' then
        match skipWs cs with
        | '\x7d' :: rest => some (.obj [], rest)
        | l1 =>
          match parseMembers fuel l1 with
          | some (ms, rest) => some (.obj ms, rest)
          | none => none
      else
        match l with
        | 'n' :: 'u' :: 'l' :: 'l' :: rest => some (.null, rest)
        | 't' :: 'r' :: 'u' :: 'e' :: rest => some (.bool true, rest)
        | 'f' :: 'a' :: 'l' :: 's' :: 'e' :: rest => some (.bool false, rest)
        | _ => if c == '-' || c.isDigit then parseNumber l else none

/-- Comma-separated values up to the closing `]`. -/
def parseElems : Nat → List Char → Option (List JsValue × List Char)
  | 0, _ => none
  | fuel + 1, l =>
    match parseValue fuel l with
    | none => none
    | some (v, rest) =>
      match skipWs rest with
      | ',' :: r2 =>
        match parseElems fuel (skipWs r2) with
        | some (vs, rest2) => some (v :: vs, rest2)
        | none => none
      | ']' :: r2 => some ([v], r2)
      | _ => none

/-- Comma-separated `"key": value` members up to the closing brace. -/
def parseMembers : Nat → List Char → Option (List (String × JsValue) × List Char)
  | 0, _ => none
  | fuel + 1, l =>
    match l with
    | '"' :: cs =>
      match parseStringBody (cs.length + 1) cs with
      | none => none
      | some (key, rest) =>
        match skipWs rest with
        | ':' :: r2 =>
          match parseValue fuel (skipWs r2) with
          | none => none
          | some (v, rest2) =>
            match skipWs rest2 with
            | ',' :: r3 =>
              match parseMembers fuel (skipWs r3) with
              | some (ms, rest3) => some ((String.mk key, v) :: ms, rest3)
              | none => none
            | '\x7d' :: r3 => some ([(String.mk key, v)], r3)
            | _ => none
        | _ => none
    | _ => none

end

/-- `JSON.parse`: one JSON value surrounded by optional whitespace;
anything else (including trailing garbage) throws, modelled as `none`. -/
def jsonParse (s : String) : Option JsValue :=
  match parseValue (2 * s.data.length + 4) (skipWs s.data) with
  | some (v, rest) => if (skipWs rest).isEmpty then some v else none
  | none => none

/-- Model of `aiResponse.match(/\[[\s\S]*\]/)` (server.ts:323): the greedy
match is the substring stretching from the first `[` to the last `]` of
the whole text, provided the first `[` occurs before the last `]`;
otherwise there is no match. -/
def jsMatchArr (s : String) : Option String :=
  let cs := s.data
  let i := (cs.takeWhile (fun c => c != '[')).length
  let j := cs.length - 1 - (cs.reverse.takeWhile (fun c => c != ']')).length
  if cs.contains '[' && cs.contains ']' && i < j then
    some (String.mk ((cs.drop i).take (j - i + 1)))
  else
    none

/-- One step block of `generateYamlFromSpec` (server.ts:355-391).  The
result distinguishes a thrown TypeError (`none`, only possible when the
step itself is `null`/`undefined`), a silently skipped unrecognized step
(`some none`), and an emitted block (`some (some block)`). -/
def renderStepE (st : JsValue) : Option (Option String) :=
  match getFieldE st "type" with
  | none => none
  | some t =>
    match t with
    | .str s =>
      if s == "navigate" then
        match getFieldE st "value" with
        | none => none
        | some v =>
          some (some ("  - type: navigate\n    value: " ++ jsToString v ++ "\n\n"))
      else if s == "wait" then
        match getFieldE st "timeout" with
        | none => none
        | some tm =>
          some (some ("  - type: wait\n    timeout: " ++
            jsToString (jsOr tm (.num 2000 0)) ++ "\n\n"))
      else if s == "input" then
        match getFieldE st "target", getFieldE st "value" with
        | some tgt, some v =>
          some (some ("  - type: input\n    target:\n      css: \"" ++
            jsToString (jsOr (optChain tgt "css") (.str "input")) ++
            "\"\n    value: \"" ++ jsToString (jsOr v (.str "")) ++ "\"\n\n"))
        | _, _ => none
      else if s == "tap" then
        match getFieldE st "target" with
        | none => none
        | some tgt =>
          some (some ("  - type: tap\n    target:\n      css: \"" ++
            jsToString (jsOr (optChain tgt "css") (.str "button")) ++ "\"\n\n"))
      else if s == "screenshot" then
        match getFieldE st "name" with
        | none => none
        | some n =>
          some (some ("  - type: screenshot\n    name: " ++
            jsToString (jsOr n (.str "screenshot.png")) ++ "\n\n"))
      else if s == "assert" then
        match getFieldE st "target" with
        | none => none
        | some tgt =>
          some (some ("  - type: assert\n    target:\n      css: \"" ++
            jsToString (jsOr (optChain tgt "css") (.str "body")) ++ "\"\n\n"))
      else some none
    | _ => some none

/-- The `for (const step of spec.steps)` accumulation loop of
`generateYamlFromSpec`: blocks of recognized steps are appended in input
order, unrecognized steps contribute nothing, a throwing step aborts. -/
def renderSteps : List JsValue → Option String
  | [] => some ""
  | st :: rest =>
    match renderStepE st with
    | none => none
    | some b =>
      match renderSteps rest with
      | none => none
      | some r => some ((match b with | some blk => blk | none => "") ++ r)

/-- The step types `generateYamlFromSpec` recognizes. -/
def isRecognizedType : JsValue → Bool
  | .str s =>
    s == "navigate" || s == "wait" || s == "input" || s == "tap" ||
      s == "screenshot" || s == "assert"
  | _ => false

/-- The block a step contributes, if any. -/
def emittedBlock (st : JsValue) : Option String :=
  match renderStepE st with
  | some (some b) => some b
  | _ => none

def concatAll : List String → String
  | [] => ""
  | s :: rest => s ++ concatAll rest

/-- `for..of` iteration: arrays iterate their elements, strings iterate
their characters (as one-character strings), everything else throws. -/
def jsIterate : JsValue → Option (List JsValue)
  | .arr xs => some xs
  | .str s => some (s.data.map fun c => .str (String.mk [c]))
  | _ => none

/-- `generateYamlFromSpec` (server.ts:343-394): header followed by the
rendered steps.  `projectName` is taken but never used, as in the source.
`none` models a thrown TypeError (caught by the caller). -/
def generateYamlFromSpec (spec : JsValue) (projectName baseUrl : String) : Option String :=
  match getFieldE spec "description" with
  | none => none
  | some d =>
    match getFieldE spec "name" with
    | none => none
    | some nm =>
      let header := "name: " ++ jsToString (jsOr d nm) ++
        "\nplatform: web\n\nconfig:\n  web:\n    baseUrl: " ++ baseUrl ++
        "\n    headless: false\n\nsteps:\n"
      match getFieldE spec "steps" with
      | none => none
      | some sv =>
        match jsIterate sv with
        | none => none
        | some steps =>
          match renderSteps steps with
          | none => none
          | some body => some (header ++ body)

/-- A `{ name, content }` object of the suite pipeline.  The `name` is
whatever JavaScript value `spec.name` held (the fallback generator always
uses strings). -/
structure GeneratedTest where
  name : JsValue
  content : String

def nameIs (t : GeneratedTest) (s : String) : Bool :=
  match t.name with
  | .str n => n == s
  | _ => false

/-- Smoke test of the fallback generator (server.ts:402-426). -/
def smokeTestContent (projectName baseUrl : String) : String :=
  "name: Smoke Test\nplatform: web\n\nconfig:\n  web:\n    baseUrl: " ++ baseUrl ++
    "\n    headless: false\n\nsteps:\n" ++
    "  - type: navigate\n    value: /\n" ++
    "\n  - type: wait\n    timeout: 2000\n" ++
    "\n  - type: screenshot\n    name: " ++ projectName ++ "-home.png\n" ++
    "\n  - type: assert\n    target:\n      css: \"body\"\n"

/-- Login test of the fallback generator (server.ts:430-467). -/
def loginFlowContent (projectName baseUrl : String) : String :=
  "name: Login Flow Test\nplatform: web\n\nconfig:\n  web:\n    baseUrl: " ++ baseUrl ++
    "\n    headless: false\n\nsteps:\n  - type: navigate\n    value: /login\n\n  - type: wait\n    timeout: 2000\n\n  - type: input\n    target:\n      css: \"input[type=\x27email\x27], input[name=\x27email\x27]\"\n    value: \"test@example.com\"\n\n  - type: input\n    target:\n      css: \"input[type=\x27password\x27], input[name=\x27password\x27]\"\n    value: \"password123\"\n\n  - type: tap\n    target:\n      css: \"button[type=\x27submit\x27]\"\n\n  - type: wait\n    timeout: 3000\n\n  - type: screenshot\n    name: " ++
    projectName ++ "-login-result.png\n"

/-- Signup test of the fallback generator (server.ts:472-513). -/
def signupFlowContent (projectName baseUrl : String) : String :=
  "name: Signup Flow Test\nplatform: web\n\nconfig:\n  web:\n    baseUrl: " ++ baseUrl ++
    "\n    headless: false\n\nsteps:\n  - type: navigate\n    value: /signup\n\n  - type: wait\n    timeout: 2000\n\n  - type: screenshot\n    name: " ++
    projectName ++
    "-signup-page.png\n\n  - type: input\n    target:\n      css: \"input[type=\x27email\x27], input[name=\x27email\x27]\"\n    value: \"newuser@example.com\"\n\n  - type: input\n    target:\n      css: \"input[type=\x27password\x27], input[name=\x27password\x27]\"\n    value: \"password123\"\n\n  - type: tap\n    target:\n      css: \"button[type=\x27submit\x27]\"\n\n  - type: wait\n    timeout: 3000\n\n  - type: screenshot\n    name: " ++
    projectName ++ "-signup-result.png\n"

/-- Messaging test of the fallback generator (server.ts:517-538). -/
def messagingContent (projectName baseUrl : String) : String :=
  "name: Messaging Test\nplatform: web\n\nconfig:\n  web:\n    baseUrl: " ++ baseUrl ++
    "\n    headless: false\n\nsteps:\n  - type: navigate\n    value: /messages\n\n  - type: wait\n    timeout: 2000\n\n  - type: screenshot\n    name: " ++
    projectName ++ "-messages.png\n"

/-- Profile test of the fallback generator (server.ts:541-563). -/
def userProfileContent (projectName baseUrl : String) : String :=
  "name: User Profile Test\nplatform: web\n\nconfig:\n  web:\n    baseUrl: " ++ baseUrl ++
    "\n    headless: false\n\nsteps:\n  - type: navigate\n    value: /profile\n\n  - type: wait\n    timeout: 2000\n\n  - type: screenshot\n    name: " ++
    projectName ++ "-profile.png\n"

/-- `generateFallbackTests` (server.ts:397-566): one unconditional smoke
test, then one test per keyword group found in the lowercased
description, in the source's push order.  Total (it can never throw). -/
def generateFallbackTests (description projectName baseUrl : String) : List GeneratedTest :=
  let desc := jsToLower description
  [{ name := .str "smoke-test", content := smokeTestContent projectName baseUrl }] ++
  (if jsIncludes desc "login" || jsIncludes desc "auth" || jsIncludes desc "sign in" then
    [{ name := .str "login-flow", content := loginFlowContent projectName baseUrl }]
  else []) ++
  (if jsIncludes desc "signup" || jsIncludes desc "register" || jsIncludes desc "sign up" then
    [{ name := .str "signup-flow", content := signupFlowContent projectName baseUrl }]
  else []) ++
  (if jsIncludes desc "message" || jsIncludes desc "chat" || jsIncludes desc "messaging" then
    [{ name := .str "messaging", content := messagingContent projectName baseUrl }]
  else []) ++
  (if jsIncludes desc "profile" || jsIncludes desc "user" then
    [{ name := .str "user-profile", content := userProfileContent projectName baseUrl }]
  else [])

/-- `testSpecs.map(spec => ({ name: spec.name, content:
generateYamlFromSpec(spec, ...) }))` (server.ts:332-335); a TypeError on
any element aborts the whole map (`none`), which the caller catches. -/
def mapSpecs (specs : List JsValue) (projectName baseUrl : String) :
    Option (List GeneratedTest) :=
  specs.mapM fun spec =>
    match getFieldE spec "name" with
    | none => none
    | some nm =>
      match generateYamlFromSpec spec projectName baseUrl with
      | none => none
      | some content => some { name := nm, content := content }

def noJsonMsg : String := "AI response did not contain valid JSON, using fallback"

def parseFailMsg : String := "Failed to parse AI response, using fallback"

/-- Result of one `generateTestsWithAI` run: the returned test list,
whether a provider request was issued, whether `generateFallbackTests`
produced the result, and the broadcast messages the function itself
emitted (server.ts:325 and 337). -/
structure SuiteGenResult where
  tests : List GeneratedTest
  networkCalled : Bool
  usedFallback : Bool
  events : List String

/-- The response-handling half of `generateTestsWithAI`
(server.ts:320-339), entered after a provider returned `aiResponse`:
regex-extract the array, `JSON.parse` it, map every element to a test; any
failure broadcasts one notice and falls back. -/
def processAIResponse (description projectName baseUrl aiResponse : String) : SuiteGenResult :=
  match jsMatchArr aiResponse with
  | none =>
    { tests := generateFallbackTests description projectName baseUrl,
      networkCalled := true, usedFallback := true, events := [noJsonMsg] }
  | some m =>
    match jsonParse m with
    | none =>
      { tests := generateFallbackTests description projectName baseUrl,
        networkCalled := true, usedFallback := true, events := [parseFailMsg] }
    | some v =>
      match v with
      | .arr specs =>
        match mapSpecs specs projectName baseUrl with
        | some ts =>
          { tests := ts, networkCalled := true, usedFallback := false, events := [] }
        | none =>
          { tests := generateFallbackTests description projectName baseUrl,
            networkCalled := true, usedFallback := true, events := [parseFailMsg] }
      | _ =>
        { tests := generateFallbackTests description projectName baseUrl,
          networkCalled := true, usedFallback := true, events := [parseFailMsg] }

/-- The provider conditions of server.ts:268-318: a request is issued for
`ollama` unconditionally and for `openai`/`anthropic` only with a truthy
(non-empty) api key. -/
def providerAttempted (provider apiKey : String) : Bool :=
  provider == "ollama" || (provider == "openai" && !apiKey.isEmpty) ||
    (provider == "anthropic" && !apiKey.isEmpty)

/-- `generateTestsWithAI` (server.ts:220-340).  `aiResponse` stands for
the text the selected provider's transport would deliver (each branch
digs it out of a provider-specific envelope before the shared parsing
code runs); a transport-level rejection would propagate out of the
function uncaught and is outside every claim below.  `model` only selects
the remote model and never influences the result. -/
def generateTestsWithAI (description projectName baseUrl provider apiKey model : String)
    (aiResponse : String) : SuiteGenResult :=
  if provider == "ollama" then
    processAIResponse description projectName baseUrl aiResponse
  else if provider == "openai" && !apiKey.isEmpty then
    processAIResponse description projectName baseUrl aiResponse
  else if provider == "anthropic" && !apiKey.isEmpty then
    processAIResponse description projectName baseUrl aiResponse
  else
    { tests := generateFallbackTests description projectName baseUrl,
      networkCalled := false, usedFallback := true, events := [] }

/-- An `{email, password}` pair of the static `CREDENTIALS` table
(server.ts:569-572). -/
structure Credential where
  email : String
  password : String

def CREDENTIALS_user : Credential :=
  { email := "newuser@test.com", password := "Leonidas12!" }

def CREDENTIALS_creator : Credential :=
  { email := "newcreator@test.com", password := "Leonidas12!" }

/-- The credential selection of `generateTestYaml` (server.ts:577-578):
`scenario.includes('creator') || scenario.includes('admin')` picks the
creator pair, otherwise the user pair. -/
def credsFor (scenario : String) : Credential :=
  if jsIncludes scenario "creator" || jsIncludes scenario "admin" then CREDENTIALS_creator
  else CREDENTIALS_user

-- scenario template `login`
def loginScenario (browser baseUrl : String) (creds : Credential) : String :=
  "name: Login Flow Test (" ++
    browser ++
    ")\nplatform: web\n\nconfig:\n  web:\n    baseUrl: " ++
    baseUrl ++
    "\n    headless: false\n\nvariables:\n  testEmail: " ++
    creds.email ++
    "\n  testPassword: " ++
    creds.password ++
    "\n\nsteps:\n  - type: navigate\n    value: /login\n\n  - type: wait\n    timeout: 2000\n\n  - type: screenshot\n    name: login-" ++
    browser ++
    "-initial.png\n\n  - type: input\n    target:\n      css: \"input[type=\x27email\x27], input[name=\x27email\x27], #email\"\n    value: \"\x7b\x7btestEmail\x7d\x7d\"\n\n  - type: input\n    target:\n      css: \"input[type=\x27password\x27], input[name=\x27password\x27], #password\"\n    value: \"\x7b\x7btestPassword\x7d\x7d\"\n\n  - type: screenshot\n    name: login-" ++
    browser ++
    "-filled.png\n\n  - type: tap\n    target:\n      css: \"button[type=\x27submit\x27], .login-button\"\n\n  - type: wait\n    timeout: 3000\n\n  - type: screenshot\n    name: login-" ++
    browser ++
    "-result.png\n"

-- scenario template `signup`
def signupScenario (browser baseUrl : String) (creds : Credential) : String :=
  "name: Signup Flow Test (" ++
    browser ++
    ")\nplatform: web\n\nconfig:\n  web:\n    baseUrl: " ++
    baseUrl ++
    "\n    headless: false\n\nvariables:\n  username: user_\x7b\x7buuid\x7d\x7d\n  email: " ++
    creds.email ++
    "\n  password: " ++
    creds.password ++
    "\n\nsteps:\n  - type: navigate\n    value: /signup\n\n  - type: wait\n    timeout: 2000\n\n  - type: screenshot\n    name: signup-" ++
    browser ++
    "-initial.png\n\n  - type: input\n    target:\n      css: \"input[type=\x27email\x27], input[name=\x27email\x27]\"\n    value: \"\x7b\x7bemail\x7d\x7d\"\n\n  - type: input\n    target:\n      css: \"input[type=\x27password\x27], input[name=\x27password\x27]\"\n    value: \"\x7b\x7bpassword\x7d\x7d\"\n\n  - type: screenshot\n    name: signup-" ++
    browser ++
    "-filled.png\n\n  - type: tap\n    target:\n      css: \"button[type=\x27submit\x27]\"\n\n  - type: wait\n    timeout: 3000\n\n  - type: screenshot\n    name: signup-" ++
    browser ++
    "-result.png\n"

-- scenario template `messages`
def messagesScenario (browser baseUrl : String) (creds : Credential) : String :=
  "name: Send Message Test (" ++
    browser ++
    ")\nplatform: web\n\nconfig:\n  web:\n    baseUrl: " ++
    baseUrl ++
    "\n    headless: false\n\nvariables:\n  testEmail: " ++
    creds.email ++
    "\n  testPassword: " ++
    creds.password ++
    "\n  testMessage: Hello from automated test \x7b\x7buuid\x7d\x7d\n\nsteps:\n  # Login first\n  - type: navigate\n    value: /login\n\n  - type: wait\n    timeout: 2000\n\n  - type: input\n    target:\n      css: \"input[type=\x27email\x27], input[name=\x27email\x27], #email\"\n    value: \"\x7b\x7btestEmail\x7d\x7d\"\n\n  - type: input\n    target:\n      css: \"input[type=\x27password\x27], input[name=\x27password\x27], #password\"\n    value: \"\x7b\x7btestPassword\x7d\x7d\"\n\n  - type: tap\n    target:\n      css: \"button[type=\x27submit\x27], .login-button\"\n\n  - type: wait\n    timeout: 3000\n\n  - type: screenshot\n    name: messages-" ++
    browser ++
    "-after-login.png\n\n  # Navigate to messages\n  - type: navigate\n    value: /messages\n\n  - type: wait\n    timeout: 2000\n\n  - type: screenshot\n    name: messages-" ++
    browser ++
    "-inbox.png\n\n  # Try to compose a message\n  - type: input\n    target:\n      css: \"textarea, input[type=\x27text\x27], .message-input\"\n    value: \"\x7b\x7btestMessage\x7d\x7d\"\n    optional: true\n\n  - type: screenshot\n    name: messages-" ++
    browser ++
    "-compose.png\n\n  - type: tap\n    target:\n      css: \"button[type=\x27submit\x27], .send-button\"\n    optional: true\n\n  - type: wait\n    timeout: 2000\n\n  - type: screenshot\n    name: messages-" ++
    browser ++
    "-sent.png\n"

-- scenario template `media`
def mediaScenario (browser baseUrl : String) (creds : Credential) : String :=
  "name: Send Media Test (" ++
    browser ++
    ")\nplatform: web\n\nconfig:\n  web:\n    baseUrl: " ++
    baseUrl ++
    "\n    headless: false\n\nvariables:\n  testEmail: " ++
    creds.email ++
    "\n  testPassword: " ++
    creds.password ++
    "\n\nsteps:\n  # Login first\n  - type: navigate\n    value: /login\n\n  - type: wait\n    timeout: 2000\n\n  - type: input\n    target:\n      css: \"input[type=\x27email\x27], input[name=\x27email\x27], #email\"\n    value: \"\x7b\x7btestEmail\x7d\x7d\"\n\n  - type: input\n    target:\n      css: \"input[type=\x27password\x27], input[name=\x27password\x27], #password\"\n    value: \"\x7b\x7btestPassword\x7d\x7d\"\n\n  - type: tap\n    target:\n      css: \"button[type=\x27submit\x27], .login-button\"\n\n  - type: wait\n    timeout: 3000\n\n  - type: screenshot\n    name: media-" ++
    browser ++
    "-after-login.png\n\n  # Navigate to messages\n  - type: navigate\n    value: /messages\n\n  - type: wait\n    timeout: 2000\n\n  - type: screenshot\n    name: media-" ++
    browser ++
    "-start.png\n\n  # Look for media upload button\n  - type: tap\n    target:\n      css: \".media-button, .upload-button, [data-testid=\x27media-upload\x27], .attach-button\"\n    optional: true\n\n  - type: wait\n    timeout: 1000\n\n  - type: screenshot\n    name: media-" ++
    browser ++
    "-upload-dialog.png\n"

-- scenario template `smoke`
def smokeScenario (browser baseUrl : String) (creds : Credential) : String :=
  "name: Smoke Test (" ++
    browser ++
    ")\nplatform: web\n\nconfig:\n  web:\n    baseUrl: " ++
    baseUrl ++
    "\n    headless: false\n\nvariables:\n  testEmail: " ++
    creds.email ++
    "\n  testPassword: " ++
    creds.password ++
    "\n\nsteps:\n  # ===== PUBLIC PAGES =====\n  - type: navigate\n    value: /\n\n  - type: wait\n    timeout: 2000\n\n  - type: screenshot\n    name: smoke-" ++
    browser ++
    "-01-home.png\n\n  - type: navigate\n    value: /login\n\n  - type: wait\n    timeout: 1500\n\n  - type: screenshot\n    name: smoke-" ++
    browser ++
    "-02-login.png\n\n  - type: navigate\n    value: /signup\n\n  - type: wait\n    timeout: 1500\n\n  - type: screenshot\n    name: smoke-" ++
    browser ++
    "-03-signup.png\n\n  - type: navigate\n    value: /terms\n\n  - type: wait\n    timeout: 1500\n\n  - type: screenshot\n    name: smoke-" ++
    browser ++
    "-04-terms.png\n\n  - type: navigate\n    value: /privacy\n\n  - type: wait\n    timeout: 1500\n\n  - type: screenshot\n    name: smoke-" ++
    browser ++
    "-05-privacy.png\n\n  - type: navigate\n    value: /creators\n\n  - type: wait\n    timeout: 1500\n\n  - type: screenshot\n    name: smoke-" ++
    browser ++
    "-06-creators.png\n\n  # ===== LOGIN =====\n  - type: navigate\n    value: /login\n\n  - type: wait\n    timeout: 1500\n\n  - type: input\n    target:\n      css: \"input[type=\x27email\x27], input[name=\x27email\x27], #email\"\n    value: \"\x7b\x7btestEmail\x7d\x7d\"\n\n  - type: input\n    target:\n      css: \"input[type=\x27password\x27], input[name=\x27password\x27], #password\"\n    value: \"\x7b\x7btestPassword\x7d\x7d\"\n\n  - type: tap\n    target:\n      css: \"button[type=\x27submit\x27], .login-button\"\n\n  - type: wait\n    timeout: 3000\n\n  - type: screenshot\n    name: smoke-" ++
    browser ++
    "-07-after-login.png\n\n  # ===== AUTHENTICATED PAGES =====\n  - type: navigate\n    value: /profile\n\n  - type: wait\n    timeout: 1500\n\n  - type: screenshot\n    name: smoke-" ++
    browser ++
    "-08-profile.png\n\n  - type: navigate\n    value: /settings\n\n  - type: wait\n    timeout: 1500\n\n  - type: screenshot\n    name: smoke-" ++
    browser ++
    "-09-settings.png\n\n  - type: navigate\n    value: /messages\n\n  - type: wait\n    timeout: 1500\n\n  - type: screenshot\n    name: smoke-" ++
    browser ++
    "-10-messages.png\n\n  - type: navigate\n    value: /checkout\n\n  - type: wait\n    timeout: 1500\n\n  - type: screenshot\n    name: smoke-" ++
    browser ++
    "-11-checkout.png\n\n  - type: navigate\n    value: /subscriptions\n\n  - type: wait\n    timeout: 1500\n\n  - type: screenshot\n    name: smoke-" ++
    browser ++
    "-12-subscriptions.png\n\n  - type: navigate\n    value: /feed\n\n  - type: wait\n    timeout: 1500\n\n  - type: screenshot\n    name: smoke-" ++
    browser ++
    "-13-feed.png\n\n  - type: navigate\n    value: /discover\n\n  - type: wait\n    timeout: 1500\n\n  - type: screenshot\n    name: smoke-" ++
    browser ++
    "-14-discover.png\n\n  - type: navigate\n    value: /notifications\n\n  - type: wait\n    timeout: 1500\n\n  - type: screenshot\n    name: smoke-" ++
    browser ++
    "-15-notifications.png\n\n  - type: navigate\n    value: /wallet\n\n  - type: wait\n    timeout: 1500\n\n  - type: screenshot\n    name: smoke-" ++
    browser ++
    "-16-wallet.png\n\n  - type: navigate\n    value: /admin\n\n  - type: wait\n    timeout: 1500\n\n  - type: screenshot\n    name: smoke-" ++
    browser ++
    "-17-admin.png\n\n  - type: navigate\n    value: /admin/agencies\n\n  - type: wait\n    timeout: 1500\n\n  - type: screenshot\n    name: smoke-" ++
    browser ++
    "-18-admin-agencies.png\n\n  - type: navigate\n    value: /admin/creators\n\n  - type: wait\n    timeout: 1500\n\n  - type: screenshot\n    name: smoke-" ++
    browser ++
    "-19-admin-creators.png\n"

-- scenario template `profile`
def profileScenario (browser baseUrl : String) (creds : Credential) : String :=
  "name: Profile Test (" ++
    browser ++
    ")\nplatform: web\n\nconfig:\n  web:\n    baseUrl: " ++
    baseUrl ++
    "\n    headless: false\n\nvariables:\n  testEmail: " ++
    creds.email ++
    "\n  testPassword: " ++
    creds.password ++
    "\n\nsteps:\n  # Login first\n  - type: navigate\n    value: /login\n\n  - type: wait\n    timeout: 2000\n\n  - type: input\n    target:\n      css: \"input[type=\x27email\x27], input[name=\x27email\x27], #email\"\n    value: \"\x7b\x7btestEmail\x7d\x7d\"\n\n  - type: input\n    target:\n      css: \"input[type=\x27password\x27], input[name=\x27password\x27], #password\"\n    value: \"\x7b\x7btestPassword\x7d\x7d\"\n\n  - type: tap\n    target:\n      css: \"button[type=\x27submit\x27], .login-button\"\n\n  - type: wait\n    timeout: 3000\n\n  - type: screenshot\n    name: profile-" ++
    browser ++
    "-after-login.png\n\n  # Navigate to profile\n  - type: navigate\n    value: /profile\n\n  - type: wait\n    timeout: 2000\n\n  - type: screenshot\n    name: profile-" ++
    browser ++
    "-main.png\n\n  # Check for profile elements\n  - type: assert\n    target:\n      css: \"body\"\n\n  - type: screenshot\n    name: profile-" ++
    browser ++
    "-content.png\n"

-- scenario template `checkout`
def checkoutScenario (browser baseUrl : String) (creds : Credential) : String :=
  "name: Checkout Test (" ++
    browser ++
    ")\nplatform: web\n\nconfig:\n  web:\n    baseUrl: " ++
    baseUrl ++
    "\n    headless: false\n\nvariables:\n  testEmail: " ++
    creds.email ++
    "\n  testPassword: " ++
    creds.password ++
    "\n\nsteps:\n  # Login first\n  - type: navigate\n    value: /login\n\n  - type: wait\n    timeout: 2000\n\n  - type: input\n    target:\n      css: \"input[type=\x27email\x27], input[name=\x27email\x27], #email\"\n    value: \"\x7b\x7btestEmail\x7d\x7d\"\n\n  - type: input\n    target:\n      css: \"input[type=\x27password\x27], input[name=\x27password\x27], #password\"\n    value: \"\x7b\x7btestPassword\x7d\x7d\"\n\n  - type: tap\n    target:\n      css: \"button[type=\x27submit\x27], .login-button\"\n\n  - type: wait\n    timeout: 3000\n\n  - type: screenshot\n    name: checkout-" ++
    browser ++
    "-after-login.png\n\n  # Navigate to checkout\n  - type: navigate\n    value: /checkout\n\n  - type: wait\n    timeout: 2000\n\n  - type: screenshot\n    name: checkout-" ++
    browser ++
    "-main.png\n\n  # Navigate to subscriptions\n  - type: navigate\n    value: /subscriptions\n\n  - type: wait\n    timeout: 2000\n\n  - type: screenshot\n    name: checkout-" ++
    browser ++
    "-subscriptions.png\n\n  # Navigate to wallet\n  - type: navigate\n    value: /wallet\n\n  - type: wait\n    timeout: 2000\n\n  - type: screenshot\n    name: checkout-" ++
    browser ++
    "-wallet.png\n"

-- scenario template `settings`
def settingsScenario (browser baseUrl : String) (creds : Credential) : String :=
  "name: Settings Test (" ++
    browser ++
    ")\nplatform: web\n\nconfig:\n  web:\n    baseUrl: " ++
    baseUrl ++
    "\n    headless: false\n\nvariables:\n  testEmail: " ++
    creds.email ++
    "\n  testPassword: " ++
    creds.password ++
    "\n\nsteps:\n  # Login first\n  - type: navigate\n    value: /login\n\n  - type: wait\n    timeout: 2000\n\n  - type: input\n    target:\n      css: \"input[type=\x27email\x27], input[name=\x27email\x27], #email\"\n    value: \"\x7b\x7btestEmail\x7d\x7d\"\n\n  - type: input\n    target:\n      css: \"input[type=\x27password\x27], input[name=\x27password\x27], #password\"\n    value: \"\x7b\x7btestPassword\x7d\x7d\"\n\n  - type: tap\n    target:\n      css: \"button[type=\x27submit\x27], .login-button\"\n\n  - type: wait\n    timeout: 3000\n\n  - type: screenshot\n    name: settings-" ++
    browser ++
    "-after-login.png\n\n  # Navigate to settings\n  - type: navigate\n    value: /settings\n\n  - type: wait\n    timeout: 2000\n\n  - type: screenshot\n    name: settings-" ++
    browser ++
    "-main.png\n\n  # Navigate to notifications\n  - type: navigate\n    value: /notifications\n\n  - type: wait\n    timeout: 2000\n\n  - type: screenshot\n    name: settings-" ++
    browser ++
    "-notifications.png\n\n  # Navigate to profile to test settings\n  - type: navigate\n    value: /profile\n\n  - type: wait\n    timeout: 2000\n\n  - type: screenshot\n    name: settings-" ++
    browser ++
    "-profile.png\n"

-- scenario template `admin`
def adminScenario (browser baseUrl : String) : String :=
  "name: Admin Dashboard Test (" ++
    browser ++
    ")\nplatform: web\n\nconfig:\n  web:\n    baseUrl: " ++
    baseUrl ++
    "\n    headless: false\n\nvariables:\n  adminEmail: " ++
    CREDENTIALS_creator.email ++
    "\n  adminPassword: " ++
    CREDENTIALS_creator.password ++
    "\n\nsteps:\n  # Login as admin/creator\n  - type: navigate\n    value: /login\n\n  - type: wait\n    timeout: 2000\n\n  - type: input\n    target:\n      css: \"input[type=\x27email\x27], input[name=\x27email\x27], #email\"\n    value: \"\x7b\x7badminEmail\x7d\x7d\"\n\n  - type: input\n    target:\n      css: \"input[type=\x27password\x27], input[name=\x27password\x27], #password\"\n    value: \"\x7b\x7badminPassword\x7d\x7d\"\n\n  - type: tap\n    target:\n      css: \"button[type=\x27submit\x27], .login-button\"\n\n  - type: wait\n    timeout: 3000\n\n  - type: screenshot\n    name: admin-" ++
    browser ++
    "-after-login.png\n\n  # Navigate to admin dashboard\n  - type: navigate\n    value: /admin\n\n  - type: wait\n    timeout: 2000\n\n  - type: screenshot\n    name: admin-" ++
    browser ++
    "-dashboard.png\n\n  # Navigate to agencies\n  - type: navigate\n    value: /admin/agencies\n\n  - type: wait\n    timeout: 2000\n\n  - type: screenshot\n    name: admin-" ++
    browser ++
    "-agencies.png\n\n  # Navigate to creators\n  - type: navigate\n    value: /admin/creators\n\n  - type: wait\n    timeout: 2000\n\n  - type: screenshot\n    name: admin-" ++
    browser ++
    "-creators.png\n\n  # Navigate to users\n  - type: navigate\n    value: /admin/users\n\n  - type: wait\n    timeout: 2000\n\n  - type: screenshot\n    name: admin-" ++
    browser ++
    "-users.png\n\n  # Navigate to posts\n  - type: navigate\n    value: /admin/posts\n\n  - type: wait\n    timeout: 2000\n\n  - type: screenshot\n    name: admin-" ++
    browser ++
    "-posts.png\n"

/-- `generateTestYaml` (server.ts:575-1309): select credentials from the
scenario name, build the template record, and return
`tests[scenario] || tests.smoke`.  The record lookup is modelled over the
nine own keys of the literal (the JavaScript prototype chain, reachable
only with scenario names such as "toString", is outside every claim).
The `admin` template ignores the selected pair and hardcodes the creator
credentials, as the source does. -/
def generateTestYaml (scenario browser platform baseUrl : String) : String :=
  let creds := credsFor scenario
  if scenario == "login" then loginScenario browser baseUrl creds
  else if scenario == "signup" then signupScenario browser baseUrl creds
  else if scenario == "messages" then messagesScenario browser baseUrl creds
  else if scenario == "media" then mediaScenario browser baseUrl creds
  else if scenario == "smoke" then smokeScenario browser baseUrl creds
  else if scenario == "profile" then profileScenario browser baseUrl creds
  else if scenario == "checkout" then checkoutScenario browser baseUrl creds
  else if scenario == "settings" then settingsScenario browser baseUrl creds
  else if scenario == "admin" then adminScenario browser baseUrl
  else smokeScenario browser baseUrl creds

theorem str_data_append (s t : String) : (s ++ t).data = s.data ++ t.data := rfl

theorem strSub_append {l : List Char} (s t : String) (h : l <:+: s.data) :
    l <:+: (s ++ t).data := by
  rw [str_data_append]
  exact h.trans (List.prefix_append s.data t.data).isInfix

theorem strSub_last (s t : String) : t.data <:+: (s ++ t).data := by
  rw [str_data_append]
  exact (List.suffix_append s.data t.data).isInfix

/-- C1: calling the suite generator with a cloud provider kind (`openai`
or `anthropic`) and an empty (or absent, which reads as falsy exactly like
empty) api key issues no provider request and returns exactly the fallback
generator's result for the same description, project label and base url. -/
theorem cloud_without_key_degrades
    (description projectName baseUrl model aiResponse provider : String)
    (hp : provider = "openai" ∨ provider = "anthropic") :
    (generateTestsWithAI description projectName baseUrl provider "" model aiResponse).networkCalled
        = false ∧
    (generateTestsWithAI description projectName baseUrl provider "" model aiResponse).usedFallback
        = true ∧
    (generateTestsWithAI description projectName baseUrl provider "" model aiResponse).tests =
      generateFallbackTests description projectName baseUrl := by
  rcases hp with h | h <;> subst h <;> exact ⟨rfl, rfl, rfl⟩

theorem cloud_without_key_degrades_witness :
    (generateTestsWithAI "d" "p" "http://u" "openai" "" "" "resp").networkCalled = false ∧
    (generateTestsWithAI "d" "p" "http://u" "openai" "" "" "resp").usedFallback = true ∧
    (generateTestsWithAI "d" "p" "http://u" "openai" "" "" "resp").tests =
      generateFallbackTests "d" "p" "http://u" :=
  cloud_without_key_degrades "d" "p" "http://u" "" "resp" "openai" (Or.inl rfl)

/-- C2: for every description (empty included), project label and base
url, the fallback generator returns at least one test and contains exactly
one smoke test, which sits first and consists of a navigation to the home
path, a screenshot and a body-presence assertion.  The generator is a
total Lean function, mirroring that the source can never throw. -/
theorem fallback_totality (description projectName baseUrl : String) :
    1 ≤ (generateFallbackTests description projectName baseUrl).length ∧
    (generateFallbackTests description projectName baseUrl).countP
      (fun t => nameIs t "smoke-test") = 1 ∧
    (generateFallbackTests description projectName baseUrl).head? =
      some { name := .str "smoke-test", content := smokeTestContent projectName baseUrl } ∧
    ("  - type: navigate\n    value: /\n").data <:+:
      (smokeTestContent projectName baseUrl).data ∧
    ("\n  - type: screenshot\n    name: ").data <:+:
      (smokeTestContent projectName baseUrl).data ∧
    ("\n  - type: assert\n    target:\n      css: \"body\"\n").data <:+:
      (smokeTestContent projectName baseUrl).data := by
  refine ⟨?_, ?_, ?_, ?_, ?_, ?_⟩
  · simp [generateFallbackTests]
  · have h1 : ∀ c, nameIs { name := JsValue.str "smoke-test", content := c } "smoke-test" = true :=
      fun _ => rfl
    have h2 : ∀ c, nameIs { name := JsValue.str "login-flow", content := c } "smoke-test" = false :=
      fun _ => rfl
    have h3 : ∀ c, nameIs { name := JsValue.str "signup-flow", content := c } "smoke-test" = false :=
      fun _ => rfl
    have h4 : ∀ c, nameIs { name := JsValue.str "messaging", content := c } "smoke-test" = false :=
      fun _ => rfl
    have h5 : ∀ c, nameIs { name := JsValue.str "user-profile", content := c } "smoke-test" = false :=
      fun _ => rfl
    simp only [generateFallbackTests, List.cons_append, List.nil_append,
      List.countP_cons, List.countP_append, h1, h2, h3, h4, h5]
    split_ifs <;> simp [h2, h3, h4, h5]
  · simp [generateFallbackTests]
  · simp only [smokeTestContent]
    repeat first
      | (with_reducible exact strSub_last _ _)
      | (with_reducible apply strSub_append)
  · simp only [smokeTestContent]
    repeat first
      | (with_reducible exact strSub_last _ _)
      | (with_reducible apply strSub_append)
  · simp only [smokeTestContent]
    repeat first
      | (with_reducible exact strSub_last _ _)
      | (with_reducible apply strSub_append)

/-- C5: a description whose lowercased form contains `login`, `auth` or
`sign in` makes the fallback suite contain a login-flow test; a
description triggering none of the four keyword groups yields exactly the
one smoke test. -/
theorem fallback_keyword_triggering (description projectName baseUrl : String) :
    ((jsIncludes (jsToLower description) "login" || jsIncludes (jsToLower description) "auth" ||
        jsIncludes (jsToLower description) "sign in") = true →
      (generateFallbackTests description projectName baseUrl).any
        (fun t => nameIs t "login-flow") = true) ∧
    ((jsIncludes (jsToLower description) "login" || jsIncludes (jsToLower description) "auth" ||
        jsIncludes (jsToLower description) "sign in") = false →
      (jsIncludes (jsToLower description) "signup" || jsIncludes (jsToLower description) "register" ||
        jsIncludes (jsToLower description) "sign up") = false →
      (jsIncludes (jsToLower description) "message" || jsIncludes (jsToLower description) "chat" ||
        jsIncludes (jsToLower description) "messaging") = false →
      (jsIncludes (jsToLower description) "profile" || jsIncludes (jsToLower description) "user") = false →
      generateFallbackTests description projectName baseUrl =
        [{ name := .str "smoke-test", content := smokeTestContent projectName baseUrl }]) := by
  constructor
  · intro h
    simp only [generateFallbackTests, h, if_true, List.any_append, List.any_cons, List.any_nil]
    simp [nameIs]
  · intro h1 h2 h3 h4
    simp [generateFallbackTests, h1, h2, h3, h4]

theorem fallback_keyword_triggering_witness :
    (generateFallbackTests "Users can LOGIN here" "p" "http://u").any
      (fun t => nameIs t "login-flow") = true ∧
    generateFallbackTests "hello" "p" "http://u" =
      [{ name := .str "smoke-test", content := smokeTestContent "p" "http://u" }] :=
  ⟨(fallback_keyword_triggering "Users can LOGIN here" "p" "http://u").1 rfl,
   (fallback_keyword_triggering "hello" "p" "http://u").2 rfl rfl rfl rfl⟩

set_option maxHeartbeats 1600000 in
/-- C9: a scenario name containing `creator` or `admin` selects the
creator (privileged) credential pair, any other name the user (standard)
pair; in particular `generateTestYaml "admin-dashboard"` embeds the
creator email and `generateTestYaml "login"` the user email. -/
theorem credential_selection (scenario browser platform baseUrl : String) :
    ((jsIncludes scenario "creator" = true ∨ jsIncludes scenario "admin" = true) →
      credsFor scenario = CREDENTIALS_creator) ∧
    (jsIncludes scenario "creator" = false → jsIncludes scenario "admin" = false →
      credsFor scenario = CREDENTIALS_user) ∧
    CREDENTIALS_creator.email.data <:+:
      (generateTestYaml "admin-dashboard" browser platform baseUrl).data ∧
    CREDENTIALS_user.email.data <:+:
      (generateTestYaml "login" browser platform baseUrl).data := by
  refine ⟨?_, ?_, ?_, ?_⟩
  · rintro (h | h) <;> simp [credsFor, h]
  · intro h1 h2
    simp [credsFor, h1, h2]
  · have e : generateTestYaml "admin-dashboard" browser platform baseUrl =
        smokeScenario browser baseUrl CREDENTIALS_creator := rfl
    rw [e]
    simp only [smokeScenario]
    repeat first
      | (with_reducible exact strSub_last _ _)
      | (with_reducible apply strSub_append)
  · have e : generateTestYaml "login" browser platform baseUrl =
        loginScenario browser baseUrl CREDENTIALS_user := rfl
    rw [e]
    simp only [loginScenario]
    repeat first
      | (with_reducible exact strSub_last _ _)
      | (with_reducible apply strSub_append)

theorem credential_selection_witness :
    credsFor "admin-dashboard" = CREDENTIALS_creator ∧ credsFor "login" = CREDENTIALS_user :=
  ⟨(credential_selection "admin-dashboard" "chrome" "desktop" "http://u").1 (Or.inr rfl),
   (credential_selection "login" "chrome" "desktop" "http://u").2.1 rfl rfl⟩

theorem jsMatchArr_sub {s m : String} (h : jsMatchArr s = some m) : m.data <:+: s.data := by
  unfold jsMatchArr at h
  dsimp only at h
  split_ifs at h with hc
  obtain rfl : String.mk _ = m := Option.some.inj h
  exact ((List.take_prefix _ _).isInfix).trans ((List.drop_suffix _ _).isInfix)

/-- Every contiguous substring of `s`, as `drop`/`take` slices. -/
def substrs (s : String) : List String :=
  (List.range (s.data.length + 1)).flatMap fun i =>
    (List.range (s.data.length + 1)).map fun k => String.mk ((s.data.drop i).take k)

def isArrParse (t : String) : Bool :=
  match jsonParse t with
  | some (.arr _) => true
  | _ => false

/-- Decidable check that some contiguous substring parses as a JSON
array. -/
def hasArrSub (s : String) : Bool := (substrs s).any isArrParse

theorem no_arr_sub {s : String} (h : hasArrSub s = false) :
    ∀ t : String, t.data <:+: s.data → ∀ xs, jsonParse t ≠ some (.arr xs) := by
  intro t hinf xs hp
  obtain ⟨pre, suf, heq⟩ := hinf
  have hmem : t ∈ substrs s := by
    have hdrop : s.data.drop pre.length = t.data ++ suf := by
      rw [← heq, List.append_assoc, List.drop_left]
    have htake : (s.data.drop pre.length).take t.data.length = t.data := by
      rw [hdrop, List.take_left]
    have hlen : pre.length + (t.length + suf.length) = s.length := by
      have := congrArg List.length heq
      simpa [List.length_append] using this
    have hts : t.data.length = t.length := rfl
    have hss : s.data.length = s.length := rfl
    simp only [substrs, List.mem_flatMap, List.mem_map, List.mem_range]
    exact ⟨pre.length, by omega, t.data.length, by omega, by rw [htake]⟩
  have hall : ∀ x ∈ substrs s, ¬ isArrParse x = true := by
    simpa using List.any_eq_false.mp h
  have := hall t hmem
  unfold isArrParse at this
  rw [hp] at this
  simp at this

theorem genAI_eq_process (description projectName baseUrl provider apiKey model aiResponse : String)
    (h : providerAttempted provider apiKey = true) :
    generateTestsWithAI description projectName baseUrl provider apiKey model aiResponse =
      processAIResponse description projectName baseUrl aiResponse := by
  unfold providerAttempted at h
  unfold generateTestsWithAI
  split_ifs with h1 h2 h3
  · rfl
  · rfl
  · rfl
  · simp only [Bool.or_eq_true] at h
    rcases h with (h | h) | h
    · exact absurd h h1
    · exact absurd h h2
    · exact absurd h h3

/-- C3: whenever the provider's raw text contains no contiguous substring
parsing as a JSON array (non-JSON prose), the suite generator returns
exactly the tests the fallback generator produces for the same
description, project label and base url. -/
theorem bad_output_degrades (description projectName baseUrl provider apiKey model aiResponse : String)
    (hAtt : providerAttempted provider apiKey = true)
    (hNo : ∀ t : String, t.data <:+: aiResponse.data → ∀ xs, jsonParse t ≠ some (.arr xs)) :
    (generateTestsWithAI description projectName baseUrl provider apiKey model aiResponse).tests =
      generateFallbackTests description projectName baseUrl := by
  rw [genAI_eq_process description projectName baseUrl provider apiKey model aiResponse hAtt]
  rcases hm : jsMatchArr aiResponse with _ | m
  · simp [processAIResponse, hm]
  · rcases hp : jsonParse m with _ | v
    · simp [processAIResponse, hm, hp]
    · cases v with
    | arr xs => exact absurd hp (hNo m (jsMatchArr_sub hm) xs)
    | jsUndefined => simp [processAIResponse, hm, hp]
    | null => simp [processAIResponse, hm, hp]
    | bool b => simp [processAIResponse, hm, hp]
    | num a b => simp [processAIResponse, hm, hp]
    | str t => simp [processAIResponse, hm, hp]
    | obj fs => simp [processAIResponse, hm, hp]

set_option maxRecDepth 8192 in
theorem bad_output_degrades_witness :
    (generateTestsWithAI "d" "p" "http://u" "ollama" "" "" "[oops]").tests =
      generateFallbackTests "d" "p" "http://u" :=
  bad_output_degrades "d" "p" "http://u" "ollama" "" "" "[oops]" rfl
    (no_arr_sub (by decide))

/-- C4: when the extracted substring of the provider response parses as
the empty JSON array, the suite generator returns the empty test sequence
as a success and the fallback generator is not invoked. -/
theorem empty_array_is_success
    (description projectName baseUrl provider apiKey model aiResponse m : String)
    (hAtt : providerAttempted provider apiKey = true)
    (hm : jsMatchArr aiResponse = some m)
    (hp : jsonParse m = some (.arr [])) :
    (generateTestsWithAI description projectName baseUrl provider apiKey model aiResponse).tests
        = [] ∧
    (generateTestsWithAI description projectName baseUrl provider apiKey model
        aiResponse).usedFallback = false := by
  rw [genAI_eq_process description projectName baseUrl provider apiKey model aiResponse hAtt]
  have hnil : mapSpecs ([] : List JsValue) projectName baseUrl = some [] := rfl
  constructor <;> simp [processAIResponse, hm, hp, hnil]

theorem empty_array_is_success_witness :
    (generateTestsWithAI "d" "p" "http://u" "ollama" "" "" "[]").tests = [] ∧
    (generateTestsWithAI "d" "p" "http://u" "ollama" "" "" "[]").usedFallback = false :=
  empty_array_is_success "d" "p" "http://u" "ollama" "" "" "[]" "[]" rfl rfl rfl

/-- The raw provider text of the extraction-tolerance property: prose, a
fenced code block, and a one-element JSON array. -/
def c7Raw : String :=
  "Here you go:\n```json\n[\x7b\"name\":\"x\",\"steps\":[\x7b\"type\":\"navigate\",\"value\":\"/\"\x7d]\x7d]\n```"

/-- C7: on that text the regex extraction succeeds and parsing yields
exactly one spec object, named `"x"`, whose steps are exactly one
navigate step with value `"/"`. -/
theorem extraction_tolerance :
    (jsMatchArr c7Raw).bind jsonParse =
      some (.arr [.obj [("name", .str "x"),
        ("steps", .arr [.obj [("type", .str "navigate"), ("value", .str "/")]])]]) := rfl

/-- C8 counterexample: a provider call is made (`networkCalled = true`)
and the function returns with no broadcast event at all, so no event
reporting the call's result is emitted. -/
theorem provider_call_emits_no_event :
    (generateTestsWithAI "d" "p" "http://u" "ollama" "" "" "[]").networkCalled = true ∧
    (generateTestsWithAI "d" "p" "http://u" "ollama" "" "" "[]").events = [] :=
  ⟨rfl, rfl⟩

/-- C8 (amended): `generateTestsWithAI` emits no event about provider-call
results; it broadcasts exactly one notice, and only when a provider was
called and extraction failed (no JSON found, or parsing/mapping threw),
right before returning the fallback result. -/
theorem events_only_on_extraction_failure
    (description projectName baseUrl provider apiKey model aiResponse : String) :
    ((generateTestsWithAI description projectName baseUrl provider apiKey model
        aiResponse).usedFallback = false →
      (generateTestsWithAI description projectName baseUrl provider apiKey model
        aiResponse).events = []) ∧
    ((generateTestsWithAI description projectName baseUrl provider apiKey model
        aiResponse).networkCalled = false →
      (generateTestsWithAI description projectName baseUrl provider apiKey model
        aiResponse).events = []) ∧
    ((generateTestsWithAI description projectName baseUrl provider apiKey model
        aiResponse).networkCalled = true →
      (generateTestsWithAI description projectName baseUrl provider apiKey model
        aiResponse).usedFallback = true →
      (generateTestsWithAI description projectName baseUrl provider apiKey model
        aiResponse).events = [noJsonMsg] ∨
      (generateTestsWithAI description projectName baseUrl provider apiKey model
        aiResponse).events = [parseFailMsg]) := by
  have hp : ∀ d p u r, (processAIResponse d p u r).networkCalled = true ∧
      ((processAIResponse d p u r).usedFallback = false →
      (processAIResponse d p u r).events = []) ∧
      ((processAIResponse d p u r).usedFallback = true →
        (processAIResponse d p u r).events = [noJsonMsg] ∨
        (processAIResponse d p u r).events = [parseFailMsg]) := by
    intro d p u r
    rcases hm : jsMatchArr r with _ | m
    · simp [processAIResponse, hm]
    · rcases hq : jsonParse m with _ | v
      · simp [processAIResponse, hm, hq]
      · cases v with
      | arr specs =>
        rcases hs : mapSpecs specs p u with _ | ts <;>
          simp [processAIResponse, hm, hq, hs]
      | jsUndefined => simp [processAIResponse, hm, hq]
      | null => simp [processAIResponse, hm, hq]
      | bool b => simp [processAIResponse, hm, hq]
      | num a b => simp [processAIResponse, hm, hq]
      | str t => simp [processAIResponse, hm, hq]
      | obj fs => simp [processAIResponse, hm, hq]
  unfold generateTestsWithAI
  split_ifs <;>
    first
    | exact ⟨(hp _ _ _ _).2.1,
        (fun h => by
          have hn := (hp description projectName baseUrl aiResponse).1
          rw [h] at hn
          exact Bool.noConfusion hn),
        (fun _ => (hp _ _ _ _).2.2)⟩
    | exact ⟨(fun h => h.elim), (fun _ => rfl), (fun h => h.elim)⟩

theorem events_only_on_extraction_failure_witness :
    (generateTestsWithAI "d" "p" "http://u" "ollama" "" "" "no json at all").events = [noJsonMsg] ∨
    (generateTestsWithAI "d" "p" "http://u" "ollama" "" "" "no json at all").events =
      [parseFailMsg] :=
  (events_only_on_extraction_failure "d" "p" "http://u" "ollama" "" "" "no json at all").2.2
    rfl rfl

theorem renderStepE_isSome (st : JsValue) (h : isNullish st = false) :
    ∃ b, renderStepE st = some b := by
  cases st with
  | null => simp [isNullish] at h
  | jsUndefined => simp [isNullish] at h
  | bool b => exact ⟨none, rfl⟩
  | num m e => exact ⟨none, rfl⟩
  | str s => exact ⟨none, rfl⟩
  | arr xs => exact ⟨none, rfl⟩
  | obj fs =>
    unfold renderStepE
    split
    next heq => exact absurd heq (by simp [getFieldE])
    next t heq =>
      cases t with
      | jsUndefined => exact ⟨none, rfl⟩
      | null => exact ⟨none, rfl⟩
      | bool b2 => exact ⟨none, rfl⟩
      | num m2 e2 => exact ⟨none, rfl⟩
      | arr xs2 => exact ⟨none, rfl⟩
      | obj gs2 => exact ⟨none, rfl⟩
      | str s2 =>
        dsimp only
        split_ifs <;> exact ⟨_, rfl⟩

/-- C6: the renderer emits exactly one step block per step of a
recognized type, in input order, and silently skips every other step; the
spec with steps `[navigate, "bogus-type", screenshot]` renders exactly the
two blocks of the navigate and screenshot steps. -/
theorem renderer_drops_unrecognized_steps (steps : List JsValue) :
    ((steps.all fun st => !isNullish st) = true →
      renderSteps steps = some (concatAll (steps.filterMap emittedBlock))) ∧
    (∀ st t, getFieldE st "type" = some t → isRecognizedType t = false →
      renderStepE st = some none) ∧
    (generateYamlFromSpec
        (.obj [("name", .str "x"),
          ("steps", .arr [.obj [("type", .str "navigate"), ("value", .str "/")],
            .obj [("type", .str "bogus-type")],
            .obj [("type", .str "screenshot"), ("name", .str "shot.png")]])])
        "proj" "http://base" =
      some ("name: x\nplatform: web\n\nconfig:\n  web:\n    baseUrl: http://base\n    headless: false\n\nsteps:\n" ++
        ("  - type: navigate\n    value: /\n\n" ++
          ("  - type: screenshot\n    name: shot.png\n\n" ++ "")))) ∧
    ([JsValue.obj [("type", .str "navigate"), ("value", .str "/")],
      JsValue.obj [("type", .str "bogus-type")],
      JsValue.obj [("type", .str "screenshot"), ("name", .str "shot.png")]].filterMap
        emittedBlock).length = 2 := by
  refine ⟨?_, ?_, rfl, rfl⟩
  · intro h
    induction steps with
    | nil => rfl
    | cons st rest ih =>
      rw [List.all_cons, Bool.and_eq_true] at h
      obtain ⟨hst, hrest⟩ := h
      have hst' : isNullish st = false := by
        cases hns : isNullish st
        · rfl
        · rw [hns] at hst
          exact absurd hst (by simp)
      obtain ⟨b, hb⟩ := renderStepE_isSome st hst'
      have ihr := ih hrest
      simp only [renderSteps, hb, ihr, List.filterMap_cons, emittedBlock]
      cases b with
      | none => simp [concatAll]
      | some blk => simp [concatAll]
  · intro st t h hrec
    unfold renderStepE
    rw [h]
    cases t with
    | jsUndefined => rfl
    | null => rfl
    | bool b2 => rfl
    | num m2 e2 => rfl
    | arr xs2 => rfl
    | obj gs2 => rfl
    | str s2 =>
      simp only [isRecognizedType, Bool.or_eq_false_iff] at hrec
      obtain ⟨⟨⟨⟨⟨e1, e2⟩, e3⟩, e4⟩, e5⟩, e6⟩ := hrec
      dsimp only
      simp [e1, e2, e3, e4, e5, e6]

theorem renderer_drops_unrecognized_steps_witness :
    renderSteps [JsValue.obj [("type", .str "navigate"), ("value", .str "/")],
        JsValue.obj [("type", .str "bogus-type")]] =
      some (concatAll ([JsValue.obj [("type", .str "navigate"), ("value", .str "/")],
        JsValue.obj [("type", .str "bogus-type")]].filterMap emittedBlock)) :=
  (renderer_drops_unrecognized_steps _).1 rfl

/-- C10: in a wait step whose `timeout` field is present but falsy (zero
included), the renderer prints the default 2000, because the source
applies `step.timeout || 2000` to the value rather than testing for
absence. -/
theorem wait_timeout_falsy_uses_default (st tm : JsValue)
    (h1 : getFieldE st "type" = some (.str "wait"))
    (h2 : getFieldE st "timeout" = some tm)
    (h3 : jsTruthy tm = false) :
    renderStepE st = some (some "  - type: wait\n    timeout: 2000\n\n") := by
  simp only [renderStepE, h1, h2, jsOr, h3]
  simp only [Bool.false_eq_true, if_false]
  simp only [show jsToString (.num 2000 0) = "2000" from rfl]
  simp

theorem wait_timeout_falsy_uses_default_witness :
    renderStepE (.obj [("type", .str "wait"), ("timeout", .num 0 0)]) =
      some (some "  - type: wait\n    timeout: 2000\n\n") :=
  wait_timeout_falsy_uses_default _ (.num 0 0) rfl rfl rfl

end Intellyo
